import Mathlib

/-!
A shallow embedding of the goods-catalog HTTP service (`src/main.go`) and
proofs about its request handlers.

Embedding conventions:
* Go `int` is 64-bit; arithmetic that can overflow is modelled with `wrap64`
  (two's-complement wraparound at 2^64); other integer values are carried as
  unbounded `Int` (every value scanned from the store or decoded from JSON
  fits in 64 bits in the running program).
* `time.Time` values are modelled by their RFC3339 JSON rendering (a
  `String`); the zero time renders as `0001-01-01T00:00:00Z`.  The system
  clock read `time.Now()` is passed to a handler as an explicit parameter.
* JSON documents are an inductive `Json`; `encodeJson` mirrors Go's
  `encoding/json` output for the payloads this service produces (struct
  fields in declaration order, no added whitespace).  String escaping is not
  modelled: every string this development evaluates on is escape-free.
  JSON numbers are carried as `Int`: every number this service writes is an
  integer; a document holding a fractional number is outside this AST — in
  Go it would be one more saved type error on an `int` field, the same
  class the `.str`/`.bool` mismatch cases of `setGoodField` model.
* A Go slice is nil or non-nil; `encoding/json` writes `null` for the former
  and `[...]` for the latter, so a slice is modelled as `Option (List α)`
  (`none` = nil) and the handlers build their slices with `goAppend`,
  mirroring the `append` loops of the source.
* Each external call that can fail (Begin/Exec/Commit/QueryRow/Query,
  `natsConn.Publish`) takes its outcome as a parameter: `none` for success,
  `some msg` for failure with error text `msg`.  `json.Marshal` of the
  struct types of this program cannot fail and is modelled total; the dead
  `err != sql.ErrNoRows` tolerance in `createGoodHandler` guards a
  single-row aggregate scan that never returns `sql.ErrNoRows`, so it has no
  reachable branch to model.
* The Redis client is modelled by (a) the result the handler's one `Get`
  call returns (`Option Json`, `none` covering both a miss and an error,
  exactly the `err == nil` test of the source) and (b) a write log of
  `Set` calls; `Set`'s return value is ignored by the source, so a
  `cacheSetOk` flag decides whether the write lands but nothing reads it.
* `json.Unmarshal` into `[]Goods` follows Go's best-effort error handling:
  a type-mismatched element or field is recorded (`saveError`) and skipped,
  keeping its zero value, and decoding continues; an error returned by
  `time.Time.UnmarshalJSON` on a `created_at` value, by contrast, aborts
  the whole decode, keeping the partially decoded current element (the
  slice was already grown to include it) and dropping the rest.  Either
  way the handler's `goods` slice keeps the partial contents and the store
  scan of `listGoodsHandler` appends to them.  Whether a `created_at`
  string parses under Go's RFC3339 layout is carried as an abstract
  acceptance predicate (`validTime`) that every theorem quantifies over,
  so each theorem holds in particular at `time.Parse`'s actual acceptance
  set.  Object keys are matched to the struct field tags the way
  `encoding/json` does, case-insensitively under simple case folding
  (`foldChar`: ASCII case plus the Kelvin-sign and long-s orbits of
  `strings.EqualFold`).
* NATS publishes are recorded as a log of (subject, payload bytes) pairs.
-/

/-! ## JSON documents -/

inductive Json where
  | null : Json
  | bool : Bool → Json
  | num : Int → Json
  | str : String → Json
  | arr : List Json → Json
  | obj : List (String × Json) → Json
deriving Repr

mutual

/-- Rendering of a JSON document as Go's `encoding/json` writes it. -/
def encodeJson : Json → String
  | .null => "null"
  | .bool true => "true"
  | .bool false => "false"
  | .num n => toString n
  | .str s => "\"" ++ s ++ "\""
  | .arr xs => "[" ++ encodeJsonList xs ++ "]"
  | .obj fs => "\x7b" ++ encodeJsonFields fs ++ "\x7d"

def encodeJsonList : List Json → String
  | [] => ""
  | [x] => encodeJson x
  | x :: y :: xs => encodeJson x ++ "," ++ encodeJsonList (y :: xs)

def encodeJsonFields : List (String × Json) → String
  | [] => ""
  | [(k, v)] => "\"" ++ k ++ "\":" ++ encodeJson v
  | (k, v) :: f :: fs => "\"" ++ k ++ "\":" ++ encodeJson v ++ "," ++ encodeJsonFields (f :: fs)

end

/-! ## The record types of `main.go` -/

/-- `type Projects struct` of the source; `CreatedAt` carried as its RFC3339 text. -/
structure Projects where
  id : Int
  name : String
  createdAt : String
deriving Repr, DecidableEq

/-- `type Goods struct` of the source. -/
structure Goods where
  id : Int
  projectId : Int
  name : String
  description : String
  priority : Int
  removed : Bool
  createdAt : String
deriving Repr, DecidableEq

/-- `type NewPriority struct` of the source. -/
structure NewPriority where
  newPriority : Int
deriving Repr, DecidableEq

/-- JSON rendering of the zero `time.Time`. -/
def zeroTime : String := "0001-01-01T00:00:00Z"

/-- The zero value of `Goods` (Go `var good Goods`). -/
def zeroGoods : Goods :=
  { id := 0, projectId := 0, name := "", description := "", priority := 0,
    removed := false, createdAt := zeroTime }

/-- `json.Marshal` of a `Projects` value: struct fields in declaration order. -/
def projectsToJson (p : Projects) : Json :=
  .obj [("id", .num p.id), ("name", .str p.name), ("created_at", .str p.createdAt)]

/-- `json.Marshal` of a `Goods` value: struct fields in declaration order. -/
def goodsToJson (g : Goods) : Json :=
  .obj [("id", .num g.id), ("project_id", .num g.projectId), ("name", .str g.name),
    ("description", .str g.description), ("priority", .num g.priority),
    ("removed", .bool g.removed), ("created_at", .str g.createdAt)]

/-! ## Go slices -/

/-- A Go slice: `none` is the nil slice, `some l` a non-nil slice with elements `l`. -/
abbrev GoSlice (α : Type) := Option (List α)

/-- Go `append`: appending to a nil slice yields a non-nil one. -/
def goAppend {α : Type} (s : GoSlice α) (x : α) : GoSlice α :=
  some (s.getD [] ++ [x])

/-- `json.Marshal` of a slice: nil marshals to `null`, otherwise to an array. -/
def goSliceToJson {α : Type} (f : α → Json) : GoSlice α → Json
  | none => .null
  | some l => .arr (l.map f)

/-! ## `json.Unmarshal` into `[]Goods` (the cached-list decode of `listGoodsHandler`) -/

/-- Simple case folding of one character as `strings.EqualFold` applies it
to this program's field tags: ASCII upper case folds to lower case, and the
two non-ASCII characters whose fold orbit meets an ASCII letter of those
tags — the Kelvin sign (U+212A, folds with `k`) and the long s (U+017F,
folds with `s`) — fold to that letter.  (The dotted/dotless `i` pair does
not fold with ASCII `i` outside Turkic special casing, which `EqualFold`
does not use.) -/
def foldChar (c : Char) : Char :=
  if ('A' : Char) ≤ c ∧ c ≤ ('Z' : Char) then Char.ofNat (c.toNat + 32)
  else if c = Char.ofNat 0x212A then ('k' : Char)
  else if c = Char.ofNat 0x17F then ('s' : Char)
  else c

/-- An incoming object key folded for the case-insensitive field match of
`encoding/json` (the tags of `Goods` are lower-case ASCII and pairwise
distinct under folding, so folding the key and comparing is exactly
`EqualFold` against each tag). -/
def foldKey (k : String) : String := String.mk (k.data.map foldChar)

/-- What decoding one object field into a `Goods` value does. -/
inductive SetFieldResult where
  | ok : Goods → SetFieldResult
  | typeErr : SetFieldResult
  | abort : SetFieldResult
deriving Repr, DecidableEq

/--
One field of a JSON object decoded into a `Goods` value, as
`encoding/json` does it: a JSON `null` value is a no-op for every field
(`time.Time.UnmarshalJSON` returns nil on `null` too); a known key with a
value of the wrong JSON type is a saved type error — the field keeps its
value and decoding continues (`.typeErr`) — except `created_at`, whose
`time.Time.UnmarshalJSON` error is returned rather than saved and aborts
the whole decode (`.abort`); a `created_at` string is accepted iff the
abstract RFC3339 predicate `validTime` accepts it; an unknown key is
ignored.
-/
def setGoodField (validTime : String → Bool) (g : Goods) (k : String)
    (v : Json) : SetFieldResult :=
  match v with
  | .null => .ok g
  | _ =>
    if foldKey k = "id" then
      match v with
      | .num n => .ok { g with id := n }
      | _ => .typeErr
    else if foldKey k = "project_id" then
      match v with
      | .num n => .ok { g with projectId := n }
      | _ => .typeErr
    else if foldKey k = "name" then
      match v with
      | .str s => .ok { g with name := s }
      | _ => .typeErr
    else if foldKey k = "description" then
      match v with
      | .str s => .ok { g with description := s }
      | _ => .typeErr
    else if foldKey k = "priority" then
      match v with
      | .num n => .ok { g with priority := n }
      | _ => .typeErr
    else if foldKey k = "removed" then
      match v with
      | .bool b => .ok { g with removed := b }
      | _ => .typeErr
    else if foldKey k = "created_at" then
      match v with
      | .str s => if validTime s then .ok { g with createdAt := s } else .abort
      | _ => .abort
    else .ok g

/-- The state one array element's decode ends in: the (possibly partial)
struct, whether no error was saved, and whether the decode aborted. -/
structure ElemDecode where
  val : Goods
  clean : Bool
  aborted : Bool
deriving Repr, DecidableEq

def decodeGoodFields (validTime : String → Bool) (g : Goods) :
    List (String × Json) → ElemDecode
  | [] => ⟨g, true, false⟩
  | (k, v) :: rest =>
    match setGoodField validTime g k v with
    | .ok g2 => decodeGoodFields validTime g2 rest
    | .typeErr =>
      let r := decodeGoodFields validTime g rest
      ⟨r.val, false, r.aborted⟩
    | .abort => ⟨g, false, true⟩

/-- `json.Unmarshal` of one array element into a `Goods` struct: `null` is
a no-op on the freshly grown zero value, a non-object is a saved type
error leaving the zero value (decoding continues with the next element). -/
def decodeGood (validTime : String → Bool) : Json → ElemDecode
  | .null => ⟨zeroGoods, true, false⟩
  | .obj fs => decodeGoodFields validTime zeroGoods fs
  | _ => ⟨zeroGoods, false, false⟩

/-- Elementwise decode of the array: the slice is grown before each
element is decoded, so an abort keeps the partially decoded element and
drops the ones after it; saved type errors keep decoding. -/
def decodeGoodList (validTime : String → Bool) : List Json → List Goods × Bool
  | [] => ([], true)
  | x :: xs =>
    let r := decodeGood validTime x
    if r.aborted then ([r.val], false)
    else
      let p := decodeGoodList validTime xs
      (r.val :: p.1, r.clean && p.2)

/-- `json.Unmarshal` of a document into a nil `[]Goods`, returning the
slice value the call leaves behind and whether it returned no error:
`null` sets the slice to nil, an array decodes best-effort as above, and
any other document is a type error that leaves the nil slice untouched. -/
def unmarshalGoodsSlice (validTime : String → Bool) : Json → GoSlice Goods × Bool
  | .null => (none, true)
  | .arr xs =>
    let p := decodeGoodList validTime xs
    (some p.1, p.2)
  | _ => (none, false)

/-! ## Store-side arithmetic -/

/-- Two's-complement wraparound of Go's 64-bit `int` arithmetic. -/
def wrap64 (n : Int) : Int := (n + 2 ^ 63) % 2 ^ 64 - 2 ^ 63

/-- The scan of `SELECT COALESCE(MAX(priority), 0) FROM goods`: 0 on an
empty relation, otherwise the greatest `priority` value of any row. -/
def sqlMaxPriority (rows : List Goods) : Int :=
  match rows with
  | [] => 0
  | r :: rs => rs.foldl (fun a x => max a x.priority) r.priority

/-! ## Cache, publisher and response types -/

/-- One `redisClient.Set` call: key, value bytes (as JSON), expiration. -/
abbrev CacheEntry := String × Json × Nat

/-- The log of cache writes, newest first. -/
abbrev Cache := List CacheEntry

/-- `time.Minute` in nanoseconds (Go `time.Duration`). -/
def timeMinute : Nat := 60000000000

/-- The `redisCacheTime` constant of the source. -/
def redisCacheTime : Nat := timeMinute

/-- `redisClient.Set`: the source ignores the returned status, so a failed
write (`ok = false`) leaves no entry and is otherwise invisible. -/
def cacheSet (ok : Bool) (c : Cache) (k : String) (v : Json) (ttl : Nat) : Cache :=
  if ok then (k, v, ttl) :: c else c

inductive Body where
  | empty : Body
  | text : String → Body
  | json : Json → Body
deriving Repr

structure Response where
  status : Nat
  contentType : Option String
  body : Body
deriving Repr

/-- `respondWithJSON`: it JSON-encodes its variadic argument slice `data`,
so the document written is always an array of the arguments. -/
def respondWithJSON (statusCode : Nat) (data : List Json) : Response :=
  { status := statusCode, contentType := some ("application/json"),
    body := .json (.arr data) }

/-- `http.Error`: plain-text message with the given status code. -/
def httpError (msg : String) (code : Nat) : Response :=
  { status := code, contentType := some ("text/plain; charset=utf-8"),
    body := .text msg }

/-- `w.WriteHeader(http.StatusNoContent)` with no body written. -/
def noContent : Response :=
  { status := 204, contentType := none, body := .empty }

/-- The bytes a response body puts on the wire: `json.Encoder.Encode` and
`http.Error` both append a newline. -/
def renderBody : Body → String
  | .empty => ""
  | .text s => s ++ "\n"
  | .json j => encodeJson j ++ "\n"

/-- Result of a read-only handler: response, cache-write log, publishes. -/
structure ListOutcome where
  resp : Response
  cacheWrites : Cache
  pubs : List (String × String)
deriving Repr

/-- Result of a mutating handler that also writes the cache. -/
structure MutOutcome where
  resp : Response
  goods : List Goods
  cacheWrites : Cache
  pubs : List (String × String)
deriving Repr

/-- Result of a mutating handler without a cache client. -/
structure DelOutcome where
  resp : Response
  goods : List Goods
  pubs : List (String × String)
deriving Repr

/-! ## Handlers

Each handler of `main.go` is a function of the goods relation, the
request body after `json.Decoder.Decode` (`Except` carrying a decode
error), the outcomes of its external calls, and — for the insert — the
store-assigned row id, the inserted row's `project_id` column value
(the `INSERT` names no `project_id`, so the store fills it independently
of the request) and the clock. -/

/-- Go `fmt` default rendering of a `Goods` struct (`%s`); the `time.Time`
field is approximated by its stored RFC3339 text.  Only the `list_goods`
publish payload uses this, and no theorem inspects that payload. -/
def goFormatGoods (g : Goods) : String :=
  "\x7b" ++ toString g.id ++ " " ++ toString g.projectId ++ " " ++ g.name ++ " " ++
    g.description ++ " " ++ toString g.priority ++ " " ++
    (if g.removed then "true" else "false") ++ " " ++ g.createdAt ++ "\x7d"

/-- Go `fmt` default rendering of a `[]Goods` slice. -/
def goFormatGoodsSlice (s : GoSlice Goods) : String :=
  "[" ++ String.intercalate " " ((s.getD []).map goFormatGoods) ++ "]"

/-- `listProjectsHandler`: query, scan loop appending to a nil slice,
`rows.Err()`, then `respondWithJSON` with the slice as the one argument. -/
def listProjectsHandler (projects : List Projects)
    (queryErr scanErr rowsErr : Option String) : Response :=
  match queryErr with
  | some msg => httpError msg 500
  | none =>
  match scanErr with
  | some msg => httpError msg 500
  | none =>
  let slice : GoSlice Projects := projects.foldl goAppend none
  match rowsErr with
  | some msg => httpError msg 500
  | none => respondWithJSON 200 [goSliceToJson projectsToJson slice]

/-- `createGoodHandler`: decode body, scan `COALESCE(MAX(priority), 0)`,
overwrite the decoded priority with max+1 (Go `int` arithmetic), insert
`(name, description, priority, removed, created_at)` inside a transaction,
cache the marshalled struct under `goods: <id>`, publish, respond 201. -/
def createGoodHandler (st : List Goods) (rc : Cache)
    (reqBody : Except String Goods)
    (maxQueryErr beginErr execErr commitErr : Option String)
    (cacheSetOk : Bool) (pubErr : Option String)
    (newRowId dfltProjectId : Int) (now : String) : MutOutcome :=
  match reqBody with
  | .error msg => ⟨httpError msg 400, st, rc, []⟩
  | .ok g0 =>
  match maxQueryErr with
  | some msg => ⟨httpError msg 500, st, rc, []⟩
  | none =>
  let maxPriority : Int := sqlMaxPriority st
  let good : Goods := { g0 with priority := wrap64 (maxPriority + 1) }
  match beginErr with
  | some msg => ⟨httpError msg 500, st, rc, []⟩
  | none =>
  match execErr with
  | some msg => ⟨httpError msg 500, st, rc, []⟩
  | none =>
  match commitErr with
  | some msg => ⟨httpError msg 500, st, rc, []⟩
  | none =>
  let st2 : List Goods := st ++
    [{ id := newRowId, projectId := dfltProjectId, name := good.name,
       description := good.description, priority := good.priority,
       removed := good.removed, createdAt := now }]
  let data : Json := goodsToJson good
  let rc2 : Cache := cacheSet cacheSetOk rc ("goods: " ++ toString good.id) data redisCacheTime
  match pubErr with
  | some msg => ⟨httpError msg 500, st2, rc2, []⟩
  | none => ⟨respondWithJSON 201 [data], st2, rc2, [("new_good_created", encodeJson data)]⟩

/-- The store branch of `listGoodsHandler`: the scan loop appends each
queried row to the `goods` slice it finds — `goods0`, the value the
declaration or a failed `json.Unmarshal` left there — then marshals that
combined slice, `Set`s it under key `goods`, publishes a summary and
responds with it. -/
def listGoodsStorePath (goods0 : GoSlice Goods) (st : List Goods) (rc : Cache)
    (queryErr scanErr rowsErr : Option String) (cacheSetOk : Bool)
    (pubErr : Option String) : ListOutcome :=
  match queryErr with
  | some msg => ⟨httpError msg 500, rc, []⟩
  | none =>
  match scanErr with
  | some msg => ⟨httpError msg 500, rc, []⟩
  | none =>
  let goods : GoSlice Goods := st.foldl goAppend goods0
  match rowsErr with
  | some msg => ⟨httpError msg 500, rc, []⟩
  | none =>
  let data : Json := goSliceToJson goodsToJson goods
  let rc2 : Cache := cacheSet cacheSetOk rc ("goods") data redisCacheTime
  match pubErr with
  | some msg => ⟨httpError msg 500, rc2, []⟩
  | none =>
    ⟨respondWithJSON 200 [data], rc2, [("list_goods", "Goods list " ++ goFormatGoodsSlice goods)]⟩

/-- `listGoodsHandler`: if the cache `Get` succeeded and its bytes
unmarshal as `[]Goods` without error, respond with the decoded slice and
return; otherwise fall through to the store branch, whose scan loop
appends to whatever the failed unmarshal left in the `goods` slice (nil
after a `Get` miss/error or a non-array cached document, the partially
decoded elements after a failing array). -/
def listGoodsHandler (validTime : String → Bool) (st : List Goods) (rc : Cache)
    (cacheGet : Option Json) (queryErr scanErr rowsErr : Option String)
    (cacheSetOk : Bool) (pubErr : Option String) : ListOutcome :=
  match cacheGet with
  | some cached =>
    match unmarshalGoodsSlice validTime cached with
    | (goods, true) => ⟨respondWithJSON 200 [goSliceToJson goodsToJson goods], rc, []⟩
    | (goods, false) =>
      listGoodsStorePath goods st rc queryErr scanErr rowsErr cacheSetOk pubErr
  | none => listGoodsStorePath none st rc queryErr scanErr rowsErr cacheSetOk pubErr

/-- The row rewrite of `UPDATE goods SET name = $1, description = $2,
priority = $3, removed = $4` (no `WHERE` clause): only those four columns
change, on every row. -/
def applyGoodsUpdate (g : Goods) (r : Goods) : Goods :=
  { r with
    name := g.name, description := g.description,
    priority := g.priority, removed := g.removed }

/-- `updateGoodHandler`: decode body, run the unscoped `UPDATE` in a
transaction, cache the marshalled request struct under `goods:<id>`,
publish it, respond 200 with it. -/
def updateGoodHandler (st : List Goods) (rc : Cache)
    (reqBody : Except String Goods)
    (beginErr execErr commitErr : Option String) (cacheSetOk : Bool)
    (pubErr : Option String) : MutOutcome :=
  match reqBody with
  | .error msg => ⟨httpError msg 400, st, rc, []⟩
  | .ok good =>
  match beginErr with
  | some msg => ⟨httpError msg 500, st, rc, []⟩
  | none =>
  match execErr with
  | some msg => ⟨httpError msg 500, st, rc, []⟩
  | none =>
  match commitErr with
  | some msg => ⟨httpError msg 500, st, rc, []⟩
  | none =>
  let st2 : List Goods := st.map (applyGoodsUpdate good)
  let data : Json := goodsToJson good
  let rc2 : Cache := cacheSet cacheSetOk rc ("goods:" ++ toString good.id) data redisCacheTime
  match pubErr with
  | some msg => ⟨httpError msg 500, st2, rc2, []⟩
  | none => ⟨respondWithJSON 200 [data], st2, rc2, [("good_updated", encodeJson data)]⟩

/-- `removeGoodHandler`: run `DELETE FROM goods` (no `WHERE` clause) in a
transaction, publish a fixed text, respond 204 with no body. -/
def removeGoodHandler (st : List Goods)
    (beginErr execErr commitErr pubErr : Option String) : DelOutcome :=
  match beginErr with
  | some msg => ⟨httpError msg 500, st, []⟩
  | none =>
  match execErr with
  | some msg => ⟨httpError msg 500, st, []⟩
  | none =>
  match commitErr with
  | some msg => ⟨httpError msg 500, st, []⟩
  | none =>
  match pubErr with
  | some msg => ⟨httpError msg 500, [], []⟩
  | none => ⟨noContent, [], [("good_deleted", "Goods with deleted")]⟩

/-- The response document of `reprioritizeGoodHandler`: an object whose
`priorities` field holds one `(id, priority)` pair. -/
def reprioritizeResponse (rid np : Int) : Json :=
  .obj [("priorities", .arr [.obj [("id", .num rid), ("priority", .num np)]])]

/-- `reprioritizeGoodHandler`: decode `{newPriority}`, run the unscoped
`UPDATE goods SET priority = $1` in a transaction, publish a text summary,
respond 200 with a one-element `priorities` list whose id comes from the
never-assigned `var good Goods` (so it is always 0). -/
def reprioritizeGoodHandler (st : List Goods)
    (reqBody : Except String NewPriority)
    (beginErr execErr commitErr pubErr : Option String) : DelOutcome :=
  let good : Goods := zeroGoods
  match reqBody with
  | .error msg => ⟨httpError msg 400, st, []⟩
  | .ok np =>
  match beginErr with
  | some msg => ⟨httpError msg 500, st, []⟩
  | none =>
  match execErr with
  | some msg => ⟨httpError msg 500, st, []⟩
  | none =>
  match commitErr with
  | some msg => ⟨httpError msg 500, st, []⟩
  | none =>
  let st2 : List Goods := st.map (fun r => { r with priority := np.newPriority })
  match pubErr with
  | some msg => ⟨httpError msg 500, st2, []⟩
  | none =>
    ⟨respondWithJSON 200 [reprioritizeResponse good.id np.newPriority], st2,
      [("good_reprioritized", "Goods reprioritized to " ++ toString np.newPriority)]⟩

/-! ## Sample rows used by counterexamples and witnesses -/

def sampleGoodA : Goods :=
  { id := 1, projectId := 1, name := "a", description := "da", priority := 1,
    removed := false, createdAt := zeroTime }

def sampleGoodB : Goods :=
  { id := 2, projectId := 1, name := "b", description := "db", priority := 2,
    removed := false, createdAt := zeroTime }

/-- The largest Go `int` value, 2^63 - 1. -/
def maxInt64 : Int := 9223372036854775807

/-- A goods row whose priority is the largest Go `int` value. -/
def overflowGood : Goods := { sampleGoodA with priority := maxInt64 }

/-- A create request body that submits its own id, priority and timestamp. -/
def submittedGood : Goods :=
  { id := 42, projectId := 7, name := "n", description := "d", priority := 99,
    removed := false, createdAt := "2024-01-02T03:04:05Z" }

/-! ## Facts about `foldl max` and `sqlMaxPriority` -/

theorem le_foldl_max (l : List Int) (a : Int) : a ≤ l.foldl max a := by
  induction l generalizing a with
  | nil => simp
  | cons y ys ih =>
    simp only [List.foldl_cons]
    exact le_trans (le_max_left a y) (ih (max a y))

theorem mem_foldl_max (l : List Int) (a : Int) : l.foldl max a = a ∨ l.foldl max a ∈ l := by
  induction l generalizing a with
  | nil => left; rfl
  | cons y ys ih =>
    simp only [List.foldl_cons]
    rcases ih (max a y) with h | h
    · rcases max_choice a y with hm | hm
      · left; rw [h, hm]
      · right; rw [h, hm]; exact List.mem_cons_self y ys
    · right; exact List.mem_cons_of_mem y h

theorem elem_le_foldl_max (l : List Int) : ∀ a x : Int, x ∈ l → x ≤ l.foldl max a := by
  induction l with
  | nil => intro a x hx; cases hx
  | cons y ys ih =>
    intro a x hx
    simp only [List.foldl_cons]
    rcases List.mem_cons.mp hx with rfl | h
    · exact le_trans (le_max_right a x) (le_foldl_max ys (max a x))
    · exact ih (max a y) x h

theorem sqlMaxPriority_eq_foldl (r : Goods) (rs : List Goods) :
    sqlMaxPriority (r :: rs) = (rs.map Goods.priority).foldl max r.priority := by
  simp [sqlMaxPriority, List.foldl_map]

/-- On a non-empty relation, the scanned `COALESCE(MAX(priority), 0)` is a
priority some row holds and bounds every row's priority from above. -/
theorem sqlMaxPriority_spec (r : Goods) (rs : List Goods) :
    sqlMaxPriority (r :: rs) ∈ (r :: rs).map Goods.priority ∧
    ∀ p ∈ (r :: rs).map Goods.priority, p ≤ sqlMaxPriority (r :: rs) := by
  rw [sqlMaxPriority_eq_foldl]
  constructor
  · rcases mem_foldl_max (rs.map Goods.priority) r.priority with h | h
    · rw [h]; exact List.mem_cons_self _ _
    · exact List.mem_cons_of_mem _ h
  · intro p hp
    rcases List.mem_cons.mp hp with rfl | h
    · exact le_foldl_max _ _
    · exact elem_le_foldl_max _ _ _ h

/-! ## Claim theorems -/

/-- C1: for every goods relation with at least two rows, the update handler
(when its statement succeeds) rewrites the updated columns of every row and
keeps every row, the delete handler deletes every row, and the reprioritize
handler sets the priority of every row — none of them touches a single
targeted entity only. -/
theorem C1_bulk_mutation (st : List Goods) (h2 : 2 ≤ st.length) (rc : Cache)
    (g : Goods) (np : NewPriority) (ok : Bool) :
    (updateGoodHandler st rc (.ok g) none none none ok none).goods.length = st.length ∧
    (∀ r ∈ (updateGoodHandler st rc (.ok g) none none none ok none).goods,
      r.name = g.name ∧ r.description = g.description ∧
      r.priority = g.priority ∧ r.removed = g.removed) ∧
    (removeGoodHandler st none none none none).goods = [] ∧
    (reprioritizeGoodHandler st (.ok np) none none none none).goods.length = st.length ∧
    (∀ r ∈ (reprioritizeGoodHandler st (.ok np) none none none none).goods,
      r.priority = np.newPriority) := by
  refine ⟨?_, ?_, ?_, ?_, ?_⟩ <;>
    simp [updateGoodHandler, removeGoodHandler, reprioritizeGoodHandler, applyGoodsUpdate]

theorem C1_bulk_mutation_witness :
    2 ≤ ([sampleGoodA, sampleGoodB] : List Goods).length ∧
    (removeGoodHandler [sampleGoodA, sampleGoodB] none none none none).goods = [] :=
  ⟨by decide,
    (C1_bulk_mutation [sampleGoodA, sampleGoodB] (by decide) [] zeroGoods ⟨5⟩ true).2.2.1⟩

/-- C3: for each of the four mutating handlers, a publish failure after the
transaction committed yields status 500, while the goods relation holds
exactly the state the successful-publish run would leave (the committed
mutation is not rolled back or compensated). -/
theorem C3_publish_failure_persists (st : List Goods) (rc : Cache) (g : Goods)
    (np : NewPriority) (ok : Bool) (e : String) (newRowId dfltProjectId : Int)
    (now : String) :
    ((createGoodHandler st rc (.ok g) none none none none ok (some e)
        newRowId dfltProjectId now).resp.status = 500 ∧
      (createGoodHandler st rc (.ok g) none none none none ok (some e)
        newRowId dfltProjectId now).goods =
      (createGoodHandler st rc (.ok g) none none none none ok none
        newRowId dfltProjectId now).goods) ∧
    ((updateGoodHandler st rc (.ok g) none none none ok (some e)).resp.status = 500 ∧
      (updateGoodHandler st rc (.ok g) none none none ok (some e)).goods =
        (updateGoodHandler st rc (.ok g) none none none ok none).goods ∧
      (updateGoodHandler st rc (.ok g) none none none ok (some e)).goods =
        st.map (applyGoodsUpdate g)) ∧
    ((removeGoodHandler st none none none (some e)).resp.status = 500 ∧
      (removeGoodHandler st none none none (some e)).goods = []) ∧
    ((reprioritizeGoodHandler st (.ok np) none none none (some e)).resp.status = 500 ∧
      (reprioritizeGoodHandler st (.ok np) none none none (some e)).goods =
        st.map (fun r => { r with priority := np.newPriority })) := by
  refine ⟨⟨?_, ?_⟩, ⟨?_, ?_, ?_⟩, ⟨?_, ?_⟩, ⟨?_, ?_⟩⟩ <;>
    simp [createGoodHandler, updateGoodHandler, removeGoodHandler,
      reprioritizeGoodHandler, httpError]

/-- C5: for each mutating handler and each store-side failure point
(transaction begin, statement execution, commit — and for create also the
max-priority scan), the handler answers 500 and the goods relation is left
exactly as it was: no partial write is visible. -/
theorem C5_transaction_rollback (st : List Goods) (rc : Cache) (g : Goods)
    (np : NewPriority) (ok : Bool) (e : String) (newRowId dfltProjectId : Int)
    (now : String) :
    ((createGoodHandler st rc (.ok g) (some e) none none none ok none
        newRowId dfltProjectId now).resp.status = 500 ∧
      (createGoodHandler st rc (.ok g) (some e) none none none ok none
        newRowId dfltProjectId now).goods = st) ∧
    ((createGoodHandler st rc (.ok g) none (some e) none none ok none
        newRowId dfltProjectId now).resp.status = 500 ∧
      (createGoodHandler st rc (.ok g) none (some e) none none ok none
        newRowId dfltProjectId now).goods = st) ∧
    ((createGoodHandler st rc (.ok g) none none (some e) none ok none
        newRowId dfltProjectId now).resp.status = 500 ∧
      (createGoodHandler st rc (.ok g) none none (some e) none ok none
        newRowId dfltProjectId now).goods = st) ∧
    ((createGoodHandler st rc (.ok g) none none none (some e) ok none
        newRowId dfltProjectId now).resp.status = 500 ∧
      (createGoodHandler st rc (.ok g) none none none (some e) ok none
        newRowId dfltProjectId now).goods = st) ∧
    ((updateGoodHandler st rc (.ok g) (some e) none none ok none).resp.status = 500 ∧
      (updateGoodHandler st rc (.ok g) (some e) none none ok none).goods = st) ∧
    ((updateGoodHandler st rc (.ok g) none (some e) none ok none).resp.status = 500 ∧
      (updateGoodHandler st rc (.ok g) none (some e) none ok none).goods = st) ∧
    ((updateGoodHandler st rc (.ok g) none none (some e) ok none).resp.status = 500 ∧
      (updateGoodHandler st rc (.ok g) none none (some e) ok none).goods = st) ∧
    ((removeGoodHandler st (some e) none none none).resp.status = 500 ∧
      (removeGoodHandler st (some e) none none none).goods = st) ∧
    ((removeGoodHandler st none (some e) none none).resp.status = 500 ∧
      (removeGoodHandler st none (some e) none none).goods = st) ∧
    ((removeGoodHandler st none none (some e) none).resp.status = 500 ∧
      (removeGoodHandler st none none (some e) none).goods = st) ∧
    ((reprioritizeGoodHandler st (.ok np) (some e) none none none).resp.status = 500 ∧
      (reprioritizeGoodHandler st (.ok np) (some e) none none none).goods = st) ∧
    ((reprioritizeGoodHandler st (.ok np) none (some e) none none).resp.status = 500 ∧
      (reprioritizeGoodHandler st (.ok np) none (some e) none none).goods = st) ∧
    ((reprioritizeGoodHandler st (.ok np) none none (some e) none).resp.status = 500 ∧
      (reprioritizeGoodHandler st (.ok np) none none (some e) none).goods = st) := by
  simp [createGoodHandler, updateGoodHandler, removeGoodHandler,
    reprioritizeGoodHandler, httpError]

/-- C2: the claim as stated is false.  A goods relation can hold a row with
priority 2^63 - 1 (the largest Go `int`; the service itself can produce it
via `PATCH /goods/reprioritize` with that `newPriority`); `good.Priority =
int(maxPriority) + 1` then wraps to -2^63, so the stored priority is not
`max + 1`. -/
theorem C2_counterexample :
    ((createGoodHandler [overflowGood] [] (.ok zeroGoods) none none none none true none
        2 0 zeroTime).goods.map Goods.priority)
      = [maxInt64, -9223372036854775808] ∧
    sqlMaxPriority [overflowGood] = maxInt64 ∧
    (-9223372036854775808 : Int) ≠ maxInt64 + 1 := by
  refine ⟨by decide, by decide, by decide⟩

/-- C2 (amended): on a successful create the handler appends exactly one
row whose priority is `max + 1` computed in 64-bit two's-complement Go
`int` arithmetic — `wrap64 (m + 1)` where `m` is 0 on an empty relation and
otherwise the greatest priority any row holds — irrespective of the
priority submitted in the request body (whenever `m < 2^63 - 1` this value
is exactly `m + 1`, so the first good gets priority 1). -/
theorem C2_amended (st : List Goods) (rc : Cache) (g : Goods) (q : Int) (ok : Bool)
    (newRowId dfltProjectId : Int) (now : String) :
    (createGoodHandler st rc (.ok g) none none none none ok none
        newRowId dfltProjectId now).goods
      = st ++ [{ id := newRowId, projectId := dfltProjectId, name := g.name,
                 description := g.description,
                 priority := wrap64 (sqlMaxPriority st + 1),
                 removed := g.removed, createdAt := now }] ∧
    (st = [] → sqlMaxPriority st = 0) ∧
    (st ≠ [] → sqlMaxPriority st ∈ st.map Goods.priority ∧
      ∀ p ∈ st.map Goods.priority, p ≤ sqlMaxPriority st) ∧
    (createGoodHandler st rc (.ok { g with priority := q }) none none none none ok none
        newRowId dfltProjectId now).goods
      = (createGoodHandler st rc (.ok g) none none none none ok none
          newRowId dfltProjectId now).goods := by
  refine ⟨?_, ?_, ?_, ?_⟩
  · simp [createGoodHandler]
  · intro h; subst h; rfl
  · intro h
    match st with
    | [] => exact absurd rfl h
    | r :: rs => exact sqlMaxPriority_spec r rs
  · simp [createGoodHandler]

theorem C2_amended_witness :
    ([sampleGoodA] : List Goods) ≠ [] ∧
    sqlMaxPriority [sampleGoodA] ∈ [sampleGoodA].map Goods.priority :=
  ⟨by decide,
    ((C2_amended [sampleGoodA] [] zeroGoods 0 true 2 0 zeroTime).2.2.1 (by decide)).1⟩

/-- C4: the claim as stated is false.  Starting from two goods with
priorities 1 and 2, a successful reprioritize to 5 does write the document
`{"priorities":[{"id":0,"priority":5}]}` — but `respondWithJSON` encodes
its variadic argument slice, so the bytes on the wire are that document
wrapped in a one-element array (plus the encoder's newline), not the exact
claimed body. -/
theorem C4_counterexample :
    encodeJson (reprioritizeResponse 0 5)
      = "\x7b\"priorities\":[\x7b\"id\":0,\"priority\":5\x7d]\x7d" ∧
    renderBody (reprioritizeGoodHandler [sampleGoodA, sampleGoodB] (.ok ⟨5⟩)
        none none none none).resp.body
      = "[\x7b\"priorities\":[\x7b\"id\":0,\"priority\":5\x7d]\x7d]\n" ∧
    renderBody (reprioritizeGoodHandler [sampleGoodA, sampleGoodB] (.ok ⟨5⟩)
        none none none none).resp.body
      ≠ "\x7b\"priorities\":[\x7b\"id\":0,\"priority\":5\x7d]\x7d" := by
  refine ⟨by decide, by decide, by decide⟩

/-- C4 (amended): starting from a store with two goods having priorities 1
and 2, a successful `PATCH /goods/reprioritize` with body
`{"newPriority": 5}` sets the priority of both goods to 5 and responds with
status 200; the JSON document carrying `{"priorities":[{"id":0,"priority":5}]}`
(the id always the zero default) is written wrapped in a one-element
top-level array, i.e. the exact body is
`[{"priorities":[{"id":0,"priority":5}]}]` plus the encoder's newline. -/
theorem C4_amended (a b : Goods) (ha : a.priority = 1) (hb : b.priority = 2) :
    (reprioritizeGoodHandler [a, b] (.ok ⟨5⟩) none none none none).goods
      = [{ a with priority := 5 }, { b with priority := 5 }] ∧
    (reprioritizeGoodHandler [a, b] (.ok ⟨5⟩) none none none none).resp.status = 200 ∧
    (reprioritizeGoodHandler [a, b] (.ok ⟨5⟩) none none none none).resp.body
      = Body.json (.arr [reprioritizeResponse 0 5]) ∧
    renderBody (reprioritizeGoodHandler [a, b] (.ok ⟨5⟩) none none none none).resp.body
      = "[\x7b\"priorities\":[\x7b\"id\":0,\"priority\":5\x7d]\x7d]\n" := by
  refine ⟨?_, rfl, ?_, ?_⟩
  · simp [reprioritizeGoodHandler]
  · rfl
  · have h : (reprioritizeGoodHandler [a, b] (.ok ⟨5⟩) none none none none).resp
        = respondWithJSON 200 [reprioritizeResponse 0 5] := rfl
    rw [h]
    decide

theorem C4_amended_witness :
    (sampleGoodA.priority = 1 ∧ sampleGoodB.priority = 2) ∧
    (reprioritizeGoodHandler [sampleGoodA, sampleGoodB] (.ok ⟨5⟩)
        none none none none).goods
      = [{ sampleGoodA with priority := 5 }, { sampleGoodB with priority := 5 }] :=
  ⟨⟨rfl, rfl⟩, (C4_amended sampleGoodA sampleGoodB rfl rfl).1⟩

/-- C6: the claim as stated is false twice over.  First, with the bytes
`[]` cached under `goods` (which parse as an empty goods list) and a
non-empty store, the handler does skip the store, but it responds with the
parsed list re-encoded through `respondWithJSON` — the wire bytes are
`[[]]` plus a newline, not the cached payload `[]` verbatim.  Second, a
cached `["x"]` fails to unmarshal but leaves a zero-valued leftover
element in the slice, and the store scan appends to it, so the value
written back to the cache is the encoding of the leftover plus the store
rows — not the fresh encoding of the store. -/
theorem C6_counterexample :
    unmarshalGoodsSlice (fun _ => true) (Json.arr []) = (some [], true) ∧
    encodeJson (Json.arr []) = "[]" ∧
    renderBody (listGoodsHandler (fun _ => true) [sampleGoodA] []
        (some (Json.arr [])) none none none true none).resp.body = "[[]]\n" ∧
    ("[[]]\n" : String) ≠ "[]" ∧
    unmarshalGoodsSlice (fun _ => true) (Json.arr [Json.str ("x")])
      = (some [zeroGoods], false) ∧
    (listGoodsHandler (fun _ => true) [sampleGoodA] []
        (some (Json.arr [Json.str ("x")])) none none none true none).cacheWrites
      = [("goods", goSliceToJson goodsToJson (some [zeroGoods, sampleGoodA]),
          redisCacheTime)] ∧
    (some [zeroGoods, sampleGoodA] : GoSlice Goods) ≠ some [sampleGoodA] := by
  refine ⟨by decide, by decide, by decide, by decide, by decide, rfl, by decide⟩

/-- C6 (amended): if the cache holds a value under key `goods` that parses
as a goods list without error, the handler responds 200 with that parsed
list re-encoded by the shared responder (wrapped in a one-element array —
not the cached bytes verbatim), without querying the store, writing the
cache or publishing; otherwise it falls through to the store branch, whose
scan appends the queried rows to whatever the failed deserialization left
in the slice, and which (on a successful read) writes the JSON encoding of
that combined slice back to the cache under key `goods` with the 1-minute
`redisCacheTime` expiration — a fresh encoding of the store exactly when
the failure left no elements, as on a `Get` miss/error or a non-array
cached value. -/
theorem C6_amended (vt : String → Bool) (st : List Goods) (rc : Cache)
    (c : Json) (gs : GoSlice Goods) (qe se re : Option String) (ok : Bool)
    (pe : Option String) (h : unmarshalGoodsSlice vt c = (gs, true)) :
    listGoodsHandler vt st rc (some c) qe se re ok pe
      = ⟨respondWithJSON 200 [goSliceToJson goodsToJson gs], rc, []⟩ ∧
    (∀ c2 : Json, ∀ lv : GoSlice Goods, unmarshalGoodsSlice vt c2 = (lv, false) →
      listGoodsHandler vt st rc (some c2) qe se re ok pe
        = listGoodsStorePath lv st rc qe se re ok pe) ∧
    listGoodsHandler vt st rc none qe se re ok pe
      = listGoodsStorePath none st rc qe se re ok pe ∧
    (∀ lv : GoSlice Goods,
      (listGoodsStorePath lv st rc none none none true pe).cacheWrites
        = ("goods", goSliceToJson goodsToJson (st.foldl goAppend lv),
            redisCacheTime) :: rc) ∧
    redisCacheTime = timeMinute := by
  refine ⟨?_, ?_, rfl, ?_, rfl⟩
  · simp [listGoodsHandler, h]
  · intro c2 lv h2
    simp [listGoodsHandler, h2]
  · intro lv
    cases pe <;> simp [listGoodsStorePath, cacheSet]

theorem C6_amended_witness :
    unmarshalGoodsSlice (fun _ => true) Json.null = (none, true) ∧
    listGoodsHandler (fun _ => true) [] [] (some Json.null) none none none true none
      = ⟨respondWithJSON 200 [goSliceToJson goodsToJson none], [], []⟩ :=
  ⟨by decide,
    (C6_amended (fun _ => true) [] [] Json.null none none none none true none
      (by decide)).1⟩

/-- A cache `Set` outcome never shows in the store branch's response or
publishes, whatever slice the scan was seeded with: the source ignores the
`Set` result entirely. -/
theorem listGoodsStorePath_set_invisible (lv : GoSlice Goods) (st : List Goods)
    (rc : Cache) (qe se re : Option String) (ok ok2 : Bool) (pe : Option String) :
    (listGoodsStorePath lv st rc qe se re ok pe).resp
      = (listGoodsStorePath lv st rc qe se re ok2 pe).resp ∧
    (listGoodsStorePath lv st rc qe se re ok pe).pubs
      = (listGoodsStorePath lv st rc qe se re ok2 pe).pubs := by
  cases qe <;> cases se <;> cases re <;> cases pe <;> simp [listGoodsStorePath]

/-- C7: a cache `Get` miss/error or a failed deserialization of the cached
bytes makes the list handler fall through to the store branch (the query
runs, its scan seeded with the nil slice, resp. with the failed
deserialization's leftovers); with the store and publish succeeding the
handler answers 200 for every cache outcome, and neither the response nor
the publishes ever depend on whether the cache `Set` landed — no cache
failure is surfaced to the client. -/
theorem C7_cache_failure_fallthrough (vt : String → Bool) (st : List Goods)
    (rc : Cache) (cacheGet : Option Json) (qe se re : Option String)
    (ok ok2 : Bool) (pe : Option String) :
    listGoodsHandler vt st rc none qe se re ok pe
      = listGoodsStorePath none st rc qe se re ok pe ∧
    (∀ c : Json, ∀ lv : GoSlice Goods, cacheGet = some c →
      unmarshalGoodsSlice vt c = (lv, false) →
      listGoodsHandler vt st rc cacheGet qe se re ok pe
        = listGoodsStorePath lv st rc qe se re ok pe) ∧
    (listGoodsHandler vt st rc cacheGet none none none ok none).resp.status = 200 ∧
    (listGoodsHandler vt st rc cacheGet qe se re ok pe).resp
      = (listGoodsHandler vt st rc cacheGet qe se re ok2 pe).resp ∧
    (listGoodsHandler vt st rc cacheGet qe se re ok pe).pubs
      = (listGoodsHandler vt st rc cacheGet qe se re ok2 pe).pubs := by
  refine ⟨rfl, ?_, ?_, ?_, ?_⟩
  · intro c lv hc h2
    subst hc
    simp [listGoodsHandler, h2]
  · cases cacheGet with
    | none => simp [listGoodsHandler, listGoodsStorePath, respondWithJSON, cacheSet]
    | some c =>
      rcases h : unmarshalGoodsSlice vt c with ⟨lv, b⟩
      cases b <;>
        simp [listGoodsHandler, h, listGoodsStorePath, respondWithJSON, cacheSet]
  · cases cacheGet with
    | none => exact (listGoodsStorePath_set_invisible none st rc qe se re ok ok2 pe).1
    | some c =>
      rcases h : unmarshalGoodsSlice vt c with ⟨lv, b⟩
      cases b with
      | false =>
        simp only [listGoodsHandler, h]
        exact (listGoodsStorePath_set_invisible lv st rc qe se re ok ok2 pe).1
      | true => simp [listGoodsHandler, h]
  · cases cacheGet with
    | none => exact (listGoodsStorePath_set_invisible none st rc qe se re ok ok2 pe).2
    | some c =>
      rcases h : unmarshalGoodsSlice vt c with ⟨lv, b⟩
      cases b with
      | false =>
        simp only [listGoodsHandler, h]
        exact (listGoodsStorePath_set_invisible lv st rc qe se re ok ok2 pe).2
      | true => simp [listGoodsHandler, h]

theorem C7_cache_failure_fallthrough_witness :
    unmarshalGoodsSlice (fun _ => true) (Json.str ("boom")) = (none, false) ∧
    listGoodsHandler (fun _ => true) [] [] (some (Json.str ("boom")))
        none none none true none
      = listGoodsStorePath none [] [] none none none true none :=
  ⟨by decide,
    (C7_cache_failure_fallthrough (fun _ => true) [] [] (some (Json.str ("boom")))
      none none none true true none).2.1 (Json.str ("boom")) none rfl (by decide)⟩

/-- C8: the claim as stated is false.  A create request whose body submits
`id: 42` gets a 201 response and a notification that both carry id 42 —
the submitted id, not a zero/default one.  (The id is indeed never
persisted: the `INSERT` names no id column.) -/
theorem C8_counterexample :
    (createGoodHandler [] [] (.ok submittedGood) none none none none true none
        1 0 zeroTime).resp.status = 201 ∧
    (createGoodHandler [] [] (.ok submittedGood) none none none none true none
        1 0 zeroTime).resp.body
      = Body.json (.arr [goodsToJson { submittedGood with priority := 1 }]) ∧
    (createGoodHandler [] [] (.ok submittedGood) none none none none true none
        1 0 zeroTime).pubs
      = [("new_good_created", encodeJson (goodsToJson { submittedGood with priority := 1 }))] ∧
    ({ submittedGood with priority := 1 } : Goods).id = 42 ∧
    (42 : Int) ≠ 0 := by
  refine ⟨by decide, rfl, by decide, by decide, by decide⟩

/-- C8 (amended): on a successful create, the submitted id, priority and
created_at are not persisted — the stored row carries the store-assigned
id, the server-computed priority and the server clock — while the 201
response and the notification echo the decoded request struct with only its
priority overwritten: they carry the submitted id (zero only when the body
omitted one), the submitted project_id and created_at, and the
server-assigned priority. -/
theorem C8_amended (st : List Goods) (rc : Cache) (g : Goods) (ok : Bool)
    (newRowId dfltProjectId : Int) (now : String) :
    (createGoodHandler st rc (.ok g) none none none none ok none
        newRowId dfltProjectId now).goods
      = st ++ [{ id := newRowId, projectId := dfltProjectId, name := g.name,
                 description := g.description,
                 priority := wrap64 (sqlMaxPriority st + 1),
                 removed := g.removed, createdAt := now }] ∧
    (createGoodHandler st rc (.ok g) none none none none ok none
        newRowId dfltProjectId now).resp.status = 201 ∧
    (createGoodHandler st rc (.ok g) none none none none ok none
        newRowId dfltProjectId now).resp.body
      = Body.json (.arr [goodsToJson
          { g with priority := wrap64 (sqlMaxPriority st + 1) }]) ∧
    (createGoodHandler st rc (.ok g) none none none none ok none
        newRowId dfltProjectId now).pubs
      = [("new_good_created", encodeJson (goodsToJson
          { g with priority := wrap64 (sqlMaxPriority st + 1) }))] := by
  refine ⟨?_, ?_, ?_, ?_⟩ <;> simp [createGoodHandler, respondWithJSON]

/-- C9: every success response of this service is written by
`respondWithJSON`, which encodes its variadic argument slice: the body is
always the documented payload wrapped in a one-element top-level JSON
array.  On an empty store, the projects handler's nil slice marshals to
`null`, so `GET /projects` puts the exact bytes `[null]` (plus the
encoder's newline) on the wire. -/
theorem C9_body_array_wrapped (vt : String → Bool) (status : Nat)
    (data : List Json) (ps : List Projects) (st : List Goods) (rc : Cache)
    (g : Goods) (np : NewPriority) (lv gs : GoSlice Goods) (c : Json)
    (ok : Bool) (newRowId dfltProjectId : Int) (now : String) :
    (respondWithJSON status data).body = Body.json (.arr data) ∧
    (listProjectsHandler ps none none none).body
      = Body.json (.arr [goSliceToJson projectsToJson (ps.foldl goAppend none)]) ∧
    (createGoodHandler st rc (.ok g) none none none none ok none
        newRowId dfltProjectId now).resp.body
      = Body.json (.arr [goodsToJson
          { g with priority := wrap64 (sqlMaxPriority st + 1) }]) ∧
    (listGoodsStorePath lv st rc none none none ok none).resp.body
      = Body.json (.arr [goSliceToJson goodsToJson (st.foldl goAppend lv)]) ∧
    (unmarshalGoodsSlice vt c = (gs, true) →
      (listGoodsHandler vt st rc (some c) none none none ok none).resp.body
        = Body.json (.arr [goSliceToJson goodsToJson gs])) ∧
    (updateGoodHandler st rc (.ok g) none none none ok none).resp.body
      = Body.json (.arr [goodsToJson g]) ∧
    (reprioritizeGoodHandler st (.ok np) none none none none).resp.body
      = Body.json (.arr [reprioritizeResponse 0 np.newPriority]) ∧
    renderBody (listProjectsHandler [] none none none).body = "[null]\n" := by
  refine ⟨rfl, ?_, ?_, ?_, ?_, ?_, rfl, by decide⟩
  · simp [listProjectsHandler, respondWithJSON]
  · simp [createGoodHandler, respondWithJSON]
  · simp [listGoodsStorePath, respondWithJSON]
  · intro h
    simp [listGoodsHandler, h, respondWithJSON]
  · simp [updateGoodHandler, respondWithJSON]

theorem C9_body_array_wrapped_witness :
    unmarshalGoodsSlice (fun _ => true) Json.null = (none, true) ∧
    (listGoodsHandler (fun _ => true) [] [] (some Json.null)
        none none none true none).resp.body
      = Body.json (.arr [goSliceToJson goodsToJson none]) :=
  ⟨by decide,
    (C9_body_array_wrapped (fun _ => true) 200 [] [] [] [] zeroGoods ⟨5⟩
      none none Json.null true 0 0 zeroTime).2.2.2.2.1 (by decide)⟩

/-- C10: the `INSERT` issued by the create handler names only the name,
description, priority, removed and created_at columns, so for every
request, every outcome of the external calls and every submitted
`project_id`, the resulting goods relation is the same as for any other
submitted `project_id` — the stored row's `project_id` is whatever the
store fills in, independent of the request — while the echoed 201 body
still carries the submitted `project_id` inside the marshalled struct. -/
theorem C10_project_id_not_persisted (st : List Goods) (rc : Cache) (g : Goods)
    (x : Int) (mq be ee ce : Option String) (ok : Bool) (pe : Option String)
    (newRowId dfltProjectId : Int) (now : String) :
    (createGoodHandler st rc (.ok { g with projectId := x }) mq be ee ce ok pe
        newRowId dfltProjectId now).goods
      = (createGoodHandler st rc (.ok g) mq be ee ce ok pe
          newRowId dfltProjectId now).goods ∧
    (createGoodHandler st rc (.ok g) none none none none ok none
        newRowId dfltProjectId now).goods
      = st ++ [{ id := newRowId, projectId := dfltProjectId, name := g.name,
                 description := g.description,
                 priority := wrap64 (sqlMaxPriority st + 1),
                 removed := g.removed, createdAt := now }] ∧
    (createGoodHandler st rc (.ok g) none none none none ok none
        newRowId dfltProjectId now).resp.body
      = Body.json (.arr [goodsToJson
          { g with priority := wrap64 (sqlMaxPriority st + 1) }]) := by
  refine ⟨?_, ?_, ?_⟩
  · cases mq <;> cases be <;> cases ee <;> cases ce <;> cases pe <;>
      simp [createGoodHandler]
  · simp [createGoodHandler]
  · simp [createGoodHandler, respondWithJSON]
